import Mathlib

/-!
Verification of the liveness engine of the identis-web repository.

The engine lives in two front-end variants of the repository:
* the MediaPipe FaceMesh variant (src/src/components/LivenessStep.tsx,
  second document, lines 1081-1735) — modelled in namespace MP below;
* the face-api 68-point variant (src/unnamed/part_002) — modelled in
  namespace FA below.

Modelling conventions:
* JavaScript numbers are modelled as exact rationals (ℚ); floating-point
  rounding is not modelled.  Division is Lean's total division on ℚ, in
  which x / 0 = 0; where the source can actually divide by zero (calcEAR)
  this is called out explicitly at the theorem.
* Math.hypot / Math.sqrt are irrational on ℚ, so the square-root function
  is threaded through the geometric definitions as an explicit parameter
  sq : ℚ → ℚ.  Theorems whose truth depends on square-root values state
  the needed facts about sq as hypotheses; theorems about the control
  flow of the state machine hold for every sq.
* The per-frame callback onFaceResults mutates a set of React refs; the
  refs are gathered into the EngineState structure and the callback
  becomes a pure transition function on it.  UI-only state that no claim
  mentions (instruction strings, error strings, the canvas) is omitted.
* Date.now() is an external input and is passed in as the timestamp.
-/

namespace MP

/-- One MediaPipe landmark: normalized x, y plus a relative depth z. -/
structure Landmark where
  x : ℚ
  y : ℚ
  z : ℚ
deriving DecidableEq

/-- A landmark frame: the fixed 468-point indexed collection delivered by
FaceMesh, modelled as a total index assignment. -/
def Landmarks : Type := ℕ → Landmark

/-- Source: const LEFT_EYE = [362, 385, 387, 263, 373, 380] -/
def LEFT_EYE : List ℕ := [362, 385, 387, 263, 373, 380]

/-- Source: const RIGHT_EYE = [33, 160, 158, 133, 153, 144] -/
def RIGHT_EYE : List ℕ := [33, 160, 158, 133, 153, 144]

/-- Source: const MOUTH_OUTER = [61, 291, 0, 17]  (left, right, top, bottom) -/
def MOUTH_OUTER : List ℕ := [61, 291, 0, 17]

def NOSE_TIP : ℕ := 1
def LEFT_CHEEK : ℕ := 234
def RIGHT_CHEEK : ℕ := 454
def FOREHEAD : ℕ := 10
def CHIN : ℕ := 152

/-- Source: const MIN_SPOOF_SCORE = 0.3 (minimum score to pass). -/
def MIN_SPOOF_SCORE : ℚ := 3/10

/-- Source: const BLINK_THRESHOLD = 0.6 (EAR threshold for blink). -/
def BLINK_THRESHOLD : ℚ := 3/5

/-- Source: const SMILE_THRESHOLD = 1.0 (mouth ratio multiplier). -/
def SMILE_THRESHOLD : ℚ := 1

/-- Source: const TURN_THRESHOLD = 0.03 (head turn threshold). -/
def TURN_THRESHOLD : ℚ := 3/100

/-- Source: const HOLD_REQUIRED = 4 (frames to hold challenge). -/
def HOLD_REQUIRED : ℤ := 4

/-- Source: const METRICS_HISTORY_SIZE = 60 (rolling window for analysis). -/
def METRICS_HISTORY_SIZE : ℕ := 60

/-- Source interface Metrics { ear, mouth, turn, movement, timestamp }. -/
structure Metrics where
  ear : ℚ
  mouth : ℚ
  turn : ℚ
  movement : ℚ
  timestamp : ℚ
deriving DecidableEq

/-- Source interface BaselineMetrics { ear, mouth, turn }.  The same shape
is also used for the anonymous { ear, mouth, turn } record that
onFaceResults passes to processChallenge. -/
structure BaselineMetrics where
  ear : ℚ
  mouth : ℚ
  turn : ℚ
deriving DecidableEq

/-- Source type ChallengeType = 'blink' | 'smile' | 'turnLeft' | 'turnRight'. -/
inductive ChallengeType where
  | blink
  | smile
  | turnLeft
  | turnRight
deriving DecidableEq

/-- Source type StepType; 'verifying' is the state verifyLiveness enters
when all challenges are complete. -/
inductive StepType where
  | loading
  | ready
  | challenge
  | verifying
  | success
  | failed
deriving DecidableEq

/-- The mutable refs of the component, gathered into one record:
stepRef, challengesRef, challengeIndexRef, holdFramesRef,
metricsHistoryRef, baselineRef, lastLandmarksRef, spoofScoreRef, plus the
faceDetected / faceValid / progress React state. -/
structure EngineState where
  step : StepType
  faceDetected : Bool
  faceValid : Bool
  challenges : List ChallengeType
  challengeIndex : ℕ
  holdFrames : ℤ
  progress : ℚ
  history : List Metrics
  baseline : Option BaselineMetrics
  lastLandmarks : Option Landmarks
  spoofScore : ℚ

/-- Math.hypot(dx, dy), with the square root abstract. -/
def hypotQ (sq : ℚ → ℚ) (dx dy : ℚ) : ℚ := sq (dx * dx + dy * dy)

/-- Source calcEAR (lines 1200-1206): maps the six eye indices to points,
then (vertical1 + vertical2) / (2 * horizontal).  The division is
unguarded in the source; Lean's total division returns 0 when
horizontal = 0, where JavaScript would produce a non-finite value. -/
def calcEAR (sq : ℚ → ℚ) (landmarks : Landmarks) (eyeIndices : List ℕ) : ℚ :=
  let p : ℕ → Landmark := fun k => landmarks (eyeIndices.getD k 0)
  let vertical1 := hypotQ sq ((p 1).x - (p 5).x) ((p 1).y - (p 5).y)
  let vertical2 := hypotQ sq ((p 2).x - (p 4).x) ((p 2).y - (p 4).y)
  let horizontal := hypotQ sq ((p 0).x - (p 3).x) ((p 0).y - (p 3).y)
  (vertical1 + vertical2) / (2 * horizontal)

/-- Source calcMouth (lines 1209-1217): height / (width + 0.0001). -/
def calcMouth (sq : ℚ → ℚ) (landmarks : Landmarks) : ℚ :=
  let left := landmarks (MOUTH_OUTER.getD 0 0)
  let right := landmarks (MOUTH_OUTER.getD 1 0)
  let top := landmarks (MOUTH_OUTER.getD 2 0)
  let bottom := landmarks (MOUTH_OUTER.getD 3 0)
  let width := hypotQ sq (left.x - right.x) (left.y - right.y)
  let height := hypotQ sq (top.x - bottom.x) (top.y - bottom.y)
  height / (width + 1/10000)

/-- Source calcTurn (lines 1220-1227): nose offset from the cheek midpoint,
normalized by face width. -/
def calcTurn (landmarks : Landmarks) : ℚ :=
  let nose := landmarks NOSE_TIP
  let leftCheek := landmarks LEFT_CHEEK
  let rightCheek := landmarks RIGHT_CHEEK
  let faceWidth := |rightCheek.x - leftCheek.x|
  let noseOffset := nose.x - (leftCheek.x + rightCheek.x) / 2
  noseOffset / (faceWidth + 1/10000)

/-- Source calcMovement (lines 1230-1246): mean 3-D displacement of the
five stable landmarks versus the previous frame; 0 when there is none. -/
def calcMovement (sq : ℚ → ℚ) (prev : Option Landmarks) (landmarks : Landmarks) : ℚ :=
  match prev with
  | none => 0
  | some p =>
    let indices : List ℕ := [NOSE_TIP, LEFT_CHEEK, RIGHT_CHEEK, FOREHEAD, CHIN]
    let totalMovement :=
      (indices.map (fun i =>
        let dx := (landmarks i).x - (p i).x
        let dy := (landmarks i).y - (p i).y
        let dz := (landmarks i).z - (p i).z
        sq (dx * dx + dy * dy + dz * dz))).sum
    totalMovement / (indices.length : ℚ)

/-- Source validateFaceGeometry (lines 1249-1282): oval ratio, nose
centering, eyes above nose, and depth variance of the five stable
landmarks.  Uses only absolute values, ratios and squares, so no square
root parameter is needed. -/
def validateFaceGeometry (landmarks : Landmarks) : Bool :=
  let leftCheek := landmarks LEFT_CHEEK
  let rightCheek := landmarks RIGHT_CHEEK
  let forehead := landmarks FOREHEAD
  let chin := landmarks CHIN
  let nose := landmarks NOSE_TIP
  let faceWidth := |rightCheek.x - leftCheek.x|
  let faceHeight := |chin.y - forehead.y|
  let ratio := faceHeight / (faceWidth + 1/10000)
  if ratio < 4/5 ∨ ratio > 5/2 then false
  else
    let faceCenterX := (leftCheek.x + rightCheek.x) / 2
    let noseOffset := |nose.x - faceCenterX| / (faceWidth + 1/10000)
    if noseOffset > 2/5 then false
    else
      let leftEyeCenter := landmarks (LEFT_EYE.getD 0 0)
      let rightEyeCenter := landmarks (RIGHT_EYE.getD 0 0)
      if leftEyeCenter.y > nose.y ∨ rightEyeCenter.y > nose.y then false
      else
        let zValues := [leftCheek.z, rightCheek.z, forehead.z, chin.z, nose.z]
        let zMean := zValues.sum / (zValues.length : ℚ)
        let zVariance := (zValues.map (fun z => (z - zMean) ^ 2)).sum / (zValues.length : ℚ)
        if zVariance < 1/10000 then false else true

/-- Source calcSpoofScore (lines 1285-1316).  The source recomputes the
mean of the EAR window inside the reduce on every element; the value is
the same, so it is hoisted here. -/
def calcSpoofScore (history : List Metrics) : ℚ :=
  if history.length < 20 then 0
  else
    let movements := (history.drop (history.length - 20)).map Metrics.movement
    let avgMovement := movements.sum / (movements.length : ℚ)
    let movementScore : ℚ :=
      if avgMovement > 1/2000 ∧ avgMovement < 1/20 then 2/5 else 0
    let ears := (history.drop (history.length - 30)).map Metrics.ear
    let earMean := ears.sum / (ears.length : ℚ)
    let earVariance := (ears.map (fun e => (e - earMean) ^ 2)).sum / (ears.length : ℚ)
    let earScore : ℚ := if earVariance > 1/10000 then 3/10 else 0
    let depthScore : ℚ := 3/10
    min 1 (movementScore + earScore + depthScore)

/-- The switch statement of processChallenge (lines 1382-1399): the pass
predicate of each challenge, as a function of the current metrics and the
baseline. -/
def detectChallenge (c : ChallengeType) (m : BaselineMetrics) (baseline : BaselineMetrics) : Bool :=
  match c with
  | .blink => decide (m.ear < baseline.ear * BLINK_THRESHOLD)
  | .smile => decide (m.mouth > baseline.mouth * SMILE_THRESHOLD)
  | .turnLeft => decide (m.turn > TURN_THRESHOLD)
  | .turnRight => decide (m.turn < -TURN_THRESHOLD)

/-- challengesRef.current[challengeIndexRef.current] with the JavaScript
out-of-bounds behaviour: an undefined challenge matches no switch case,
leaving detected = false. -/
def currentDetected (s : EngineState) (m : BaselineMetrics) (baseline : BaselineMetrics) : Bool :=
  match s.challenges.get? s.challengeIndex with
  | some c => detectChallenge c m baseline
  | none => false

/-- Source processChallenge (lines 1375-1425).  On detection the hold
counter increments and, at HOLD_REQUIRED, either the next challenge is
selected or — when none remain — verifyLiveness() switches the step to
'verifying'.  On a failing frame the counter decays by 2, clamped at 0. -/
def processChallenge (s : EngineState) (m : BaselineMetrics) : EngineState :=
  match s.baseline with
  | none => s
  | some baseline =>
    let detected := currentDetected s m baseline
    if detected then
      let h := s.holdFrames + 1
      let progressPct := min 100 ((h : ℚ) / (HOLD_REQUIRED : ℚ) * 100)
      if h ≥ HOLD_REQUIRED then
        let nextIndex := s.challengeIndex + 1
        if nextIndex ≥ s.challenges.length then
          -- all challenges complete: captureSelfie(); verifyLiveness()
          { s with holdFrames := 0, progress := progressPct, step := .verifying }
        else
          { s with holdFrames := 0, challengeIndex := nextIndex, progress := 0 }
      else
        { s with holdFrames := h, progress := progressPct }
    else
      -- decay hold frames: Math.max(0, holdFrames - 2)
      let h := max 0 (s.holdFrames - 2)
      { s with holdFrames := h, progress := (h : ℚ) / (HOLD_REQUIRED : ℚ) * 100 }

/-- History append of onFaceResults (lines 1347-1351): push, then shift
the oldest entry once the length exceeds METRICS_HISTORY_SIZE. -/
def pushHistory (h : List Metrics) (m : Metrics) : List Metrics :=
  let h2 := h ++ [m]
  if h2.length > METRICS_HISTORY_SIZE then h2.drop 1 else h2

/-- Metric extraction of onFaceResults (lines 1339-1347). -/
def extractMetrics (sq : ℚ → ℚ) (prev : Option Landmarks) (landmarks : Landmarks)
    (now : ℚ) : Metrics :=
  let leftEAR := calcEAR sq landmarks LEFT_EYE
  let rightEAR := calcEAR sq landmarks RIGHT_EYE
  let ear := (leftEAR + rightEAR) / 2
  let mouth := calcMouth sq landmarks
  let turn := calcTurn landmarks
  let movement := calcMovement sq prev landmarks
  { ear := ear, mouth := mouth, turn := turn, movement := movement, timestamp := now }

/-- The valid-frame tail of onFaceResults (lines 1346-1371): append to the
bounded history, recompute the spoof score, establish the baseline at
exactly 10 history entries when none is set, and run the challenge step.
The source's final branch
  else if (stepRef.current === 'challenge' && !isValidFace) { holdFramesRef.current = 0; ... }
is unreachable on this path: frames with invalid geometry already
returned at the top of onFaceResults (line 1334), so isValidFace is true
whenever this code runs, and the branch is therefore omitted (see the
theorem for claim C7). -/
def processValidMetrics (s : EngineState) (m : Metrics) : EngineState :=
  let history := pushHistory s.history m
  let score := calcSpoofScore history
  let baseline :=
    if history.length = 10 ∧ s.baseline = none then
      some { ear := m.ear, mouth := m.mouth, turn := m.turn }
    else s.baseline
  let s2 := { s with history := history, spoofScore := score, baseline := baseline }
  if s2.step = StepType.challenge ∧ baseline.isSome then
    processChallenge s2 { ear := m.ear, mouth := m.mouth, turn := m.turn }
  else
    s2

/-- Source onFaceResults (lines 1319-1372), as a transition function on
the engine state.  input = none models an empty multiFaceLandmarks
result; now is the Date.now() timestamp.  The source stores
lastLandmarksRef between the baseline update and the challenge
processing; since the movement metric has already been extracted and
processValidMetrics never reads lastLandmarks, storing it before the call
is equivalent. -/
def onFaceResults (sq : ℚ → ℚ) (s : EngineState) (input : Option Landmarks)
    (now : ℚ) : EngineState :=
  match input with
  | none => { s with faceDetected := false, faceValid := false }
  | some landmarks =>
    let isValidFace := validateFaceGeometry landmarks
    let s1 := { s with faceDetected := true, faceValid := isValidFace }
    if isValidFace = false then
      { s1 with lastLandmarks := some landmarks }
    else
      let m := extractMetrics sq s1.lastLandmarks landmarks now
      processValidMetrics { s1 with lastLandmarks := some landmarks } m

/-- JavaScript array destructuring swap [a[i], a[j]] = [a[j], a[i]],
total on out-of-range indices (which the shuffle loop never produces). -/
def swapAt (l : List α) (i j : ℕ) : List α :=
  match l.get? i, l.get? j with
  | some a, some b => (l.set i b).set j a
  | _, _ => l

/-- The Fisher-Yates loop of shuffle (lines 1154-1161), counting the loop
variable i down to 1; rand i models Math.floor(Math.random() * (i + 1)),
which always lies in [0, i]. -/
def shuffleAux (rand : ℕ → ℕ) : ℕ → List α → List α
  | 0, l => l
  | n + 1, l => shuffleAux rand n (swapAt l (n + 1) (rand (n + 1)))

/-- Source shuffle (lines 1154-1161): copy the array, then run the
Fisher-Yates loop from length - 1 down to 1. -/
def shuffle (rand : ℕ → ℕ) (l : List α) : List α :=
  shuffleAux rand (l.length - 1) l

/-- Source startChallenges (lines 1540-1557): refuses without a valid
face, otherwise resets the per-session state, draws a fresh random
permutation of the challenge set and enters the challenge step. -/
def startChallenges (rand : ℕ → ℕ) (s : EngineState) : EngineState :=
  if s.faceValid = false then s
  else
    { s with
      holdFrames := 0
      challenges := shuffle rand [ChallengeType.blink, .smile, .turnLeft, .turnRight]
      history := []
      baseline := none
      spoofScore := 0
      challengeIndex := 0
      progress := 0
      step := .challenge }

/-- The synchronous acceptance gate of verifyLiveness (lines 1446-1453):
the session fails when the spoof score is strictly below
MIN_SPOOF_SCORE. -/
def scoreRejected (score : ℚ) : Bool :=
  decide (score < MIN_SPOOF_SCORE)

end MP

namespace FA

/-- One face-api 68-point landmark (faceapi.Point): x and y only. -/
structure Point where
  x : ℚ
  y : ℚ
deriving DecidableEq

/-- Source calculateEAR (src/unnamed/part_002, lines 19-25): the same EAR
formula as the MediaPipe variant but with an explicit guard — a zero
horizontal eye-corner distance returns the fallback value 0.3 instead of
dividing.  eyePoints is the six-point eye contour, indexed 0-5. -/
def calculateEAR (sq : ℚ → ℚ) (eyePoints : ℕ → Point) : ℚ :=
  let v1 := MP.hypotQ sq ((eyePoints 1).x - (eyePoints 5).x) ((eyePoints 1).y - (eyePoints 5).y)
  let v2 := MP.hypotQ sq ((eyePoints 2).x - (eyePoints 4).x) ((eyePoints 2).y - (eyePoints 4).y)
  let h := MP.hypotQ sq ((eyePoints 0).x - (eyePoints 3).x) ((eyePoints 0).y - (eyePoints 3).y)
  if h = 0 then 3/10
  else (v1 + v2) / (2 * h)

/-- Source blinkState ref: 'waiting' | 'closed' | 'done'. -/
inductive BlinkPhase where
  | waiting
  | closed
  | done
deriving DecidableEq

/-- The refs that drive the blink challenge of the face-api variant:
earValues, blinkState, blinkCount and challengeComplete. -/
structure BlinkSt where
  earValues : List ℚ
  phase : BlinkPhase
  blinkCount : ℕ
  complete : Bool
deriving DecidableEq

/-- The blink branch of detect (src/unnamed/part_002, lines 263-299),
per frame with the already-computed avgEAR.  The enclosing challenge
dispatch runs only while challengeComplete is false (line 263); the first
8 EAR samples only calibrate; afterwards the baseline is the mean of the
first 8 stored samples and the detector walks
waiting → closed (avgEAR < baseline * 0.70)
       → done   (avgEAR > baseline * 0.85), counting one blink. -/
def blinkFrame (st : BlinkSt) (avgEAR : ℚ) : BlinkSt :=
  if st.complete then st
  else
    let evs0 := st.earValues ++ [avgEAR]
    let evs := if evs0.length > 60 then evs0.drop 1 else evs0
    if evs.length < 8 then { st with earValues := evs }
    else
      let baseline := (evs.take 8).sum / 8
      let threshold := baseline * (7/10)
      match st.phase with
      | .waiting =>
        if avgEAR < threshold then { st with earValues := evs, phase := .closed }
        else { st with earValues := evs }
      | .closed =>
        if avgEAR > baseline * (85/100) then
          { st with earValues := evs, phase := .done,
                    blinkCount := st.blinkCount + 1, complete := true }
        else { st with earValues := evs }
      | .done => { st with earValues := evs }

/-- The initial blink-challenge state set by start (lines 425-437). -/
def blinkInit : BlinkSt :=
  { earValues := [], phase := .waiting, blinkCount := 0, complete := false }

end FA

/-! ## Shared concrete states and frames used in witnesses and counterexamples -/

/-- A square-root stand-in that is exact on the inputs where it is used
(only ever applied to 0 in the concrete statements below). -/
def sq0 : ℚ → ℚ := fun _ => 0

/-- A degenerate landmark frame: every index maps to the origin, so every
pairwise distance — including the horizontal eye-corner distance — is 0,
and the depth variance is 0, so face geometry validation rejects it. -/
def zeroFrame : MP.Landmarks := fun _ => { x := 0, y := 0, z := 0 }

/-- A resting baseline: eye openness 0.3, mouth ratio 0.5, centered head. -/
def demoBaseline : MP.BaselineMetrics := { ear := 3/10, mouth := 1/2, turn := 0 }

/-- Current-frame metrics identical to the baseline: the blink predicate
(ear < baseline.ear * 0.6) fails on them. -/
def restingM : MP.BaselineMetrics := { ear := 3/10, mouth := 1/2, turn := 0 }

/-- An all-zero metrics record. -/
def zeroMetric : MP.Metrics := { ear := 0, mouth := 0, turn := 0, movement := 0, timestamp := 0 }

/-- A mid-challenge engine state: blink is the current challenge and one
passing frame has been accumulated. -/
def demoC1s : MP.EngineState :=
  { step := .challenge, faceDetected := true, faceValid := true
    challenges := [.blink], challengeIndex := 0, holdFrames := 1, progress := 25
    history := [], baseline := some demoBaseline, lastLandmarks := none, spoofScore := 0 }

/-- A mid-challenge engine state with three accumulated hold frames. -/
def demoC7s : MP.EngineState :=
  { demoC1s with holdFrames := 3 }

/-- A challenge-phase state with no hold progress yet. -/
def demoC3s : MP.EngineState :=
  { demoC1s with holdFrames := 0 }

/-- A sustained-squint frame, as the { ear, mouth, turn } record handed to
processChallenge: eye openness 0.1, below the blink close threshold
0.3 * 0.6 = 0.18 of demoBaseline, and staying there (never reopening). -/
def squintEMT : MP.BaselineMetrics := { ear := 1/10, mouth := 1/2, turn := 0 }

/-- The tenth validated frame of a calibration run: its eye openness 1
differs from the mean eye openness of the first ten frames. -/
def mTen : MP.Metrics := { ear := 1, mouth := 1/2, turn := 0, movement := 0, timestamp := 0 }

/-- A fixed random source for witnesses: always picks index 0. -/
def rand0 : ℕ → ℕ := fun _ => 0

/-- A state whose history already holds nine entries and whose baseline is
not yet set: the next validated frame is the tenth. -/
def c2nine : MP.EngineState :=
  { demoC1s with step := .ready, history := List.replicate 9 zeroMetric, baseline := none }

/-- A 20-entry metrics history with zero movement everywhere and the eye
openness pinned dead flat. -/
def h20 : List MP.Metrics := List.replicate 20 zeroMetric

/-- A 25-entry flat history with a nonzero (but constant) eye openness. -/
def h25 : List MP.Metrics :=
  List.replicate 25 { ear := 1/2, mouth := 0, turn := 0, movement := 0, timestamp := 0 }

/-- A state whose history is exactly full (60 entries). -/
def s60 : MP.EngineState :=
  { demoC1s with step := .ready, history := List.replicate 60 zeroMetric }

/-- A degenerate six-point eye contour for the face-api variant: all six
points coincide, so the horizontal corner distance is 0. -/
def zeroEye : ℕ → FA.Point := fun _ => { x := 0, y := 0 }

/-- The face-api blink state a sustained squint reaches once the 60-entry
EAR buffer has shifted long enough to hold only the squint value: closed,
no blink yet, window full of EAR 0.1. -/
def driftSquintSt : FA.BlinkSt :=
  { earValues := List.replicate 60 (1/10), phase := .closed, blinkCount := 0,
    complete := false }

/-! ## Helper lemmas about the MediaPipe-variant transition functions -/

theorem processChallenge_baseline (s : MP.EngineState) (m : MP.BaselineMetrics) :
    (MP.processChallenge s m).baseline = s.baseline := by
  rcases hsb : s.baseline with _ | b
  · simp only [MP.processChallenge, hsb]
  · simp only [MP.processChallenge, hsb]
    split
    · split
      · split <;> rfl
      · rfl
    · rfl

theorem processChallenge_history (s : MP.EngineState) (m : MP.BaselineMetrics) :
    (MP.processChallenge s m).history = s.history := by
  rcases hsb : s.baseline with _ | b
  · simp only [MP.processChallenge, hsb]
  · simp only [MP.processChallenge, hsb]
    split
    · split
      · split <;> rfl
      · rfl
    · rfl

theorem processChallenge_challenges (s : MP.EngineState) (m : MP.BaselineMetrics) :
    (MP.processChallenge s m).challenges = s.challenges := by
  rcases hsb : s.baseline with _ | b
  · simp only [MP.processChallenge, hsb]
  · simp only [MP.processChallenge, hsb]
    split
    · split
      · split <;> rfl
      · rfl
    · rfl

theorem processChallenge_holdFrames_nonneg (s : MP.EngineState) (m : MP.BaselineMetrics)
    (h : 0 ≤ s.holdFrames) : 0 ≤ (MP.processChallenge s m).holdFrames := by
  rcases hsb : s.baseline with _ | b
  · simpa [MP.processChallenge, hsb] using h
  · simp only [MP.processChallenge, hsb]
    split
    · split
      · split <;> simp
      · simp only []
        omega
    · exact le_max_left 0 _

theorem processValidMetrics_challenges (s : MP.EngineState) (m : MP.Metrics) :
    (MP.processValidMetrics s m).challenges = s.challenges := by
  unfold MP.processValidMetrics
  dsimp only
  split <;> split
  · rw [processChallenge_challenges]
  · rfl
  · rw [processChallenge_challenges]
  · rfl

theorem processValidMetrics_history (s : MP.EngineState) (m : MP.Metrics) :
    (MP.processValidMetrics s m).history = MP.pushHistory s.history m := by
  unfold MP.processValidMetrics
  dsimp only
  split <;> split
  · rw [processChallenge_history]
  · rfl
  · rw [processChallenge_history]
  · rfl

theorem processValidMetrics_baseline_some (s : MP.EngineState) (m : MP.Metrics)
    (b : MP.BaselineMetrics) (hb : s.baseline = some b) :
    (MP.processValidMetrics s m).baseline = some b := by
  unfold MP.processValidMetrics
  dsimp only
  split
  · next hP => simp [hb] at hP
  · split
    · rw [processChallenge_baseline]
      exact hb
    · exact hb

theorem processValidMetrics_holdFrames_nonneg (s : MP.EngineState) (m : MP.Metrics)
    (h : 0 ≤ s.holdFrames) : 0 ≤ (MP.processValidMetrics s m).holdFrames := by
  unfold MP.processValidMetrics
  dsimp only
  split <;> split
  · exact processChallenge_holdFrames_nonneg _ _ h
  · exact h
  · exact processChallenge_holdFrames_nonneg _ _ h
  · exact h

theorem onFaceResults_holdFrames_nonneg (sq : ℚ → ℚ) (s : MP.EngineState)
    (input : Option MP.Landmarks) (now : ℚ) (h : 0 ≤ s.holdFrames) :
    0 ≤ (MP.onFaceResults sq s input now).holdFrames := by
  rcases input with _ | lm
  · exact h
  · unfold MP.onFaceResults
    dsimp only
    split
    · exact h
    · exact processValidMetrics_holdFrames_nonneg _ _ h

theorem onFaceResults_challenges (sq : ℚ → ℚ) (s : MP.EngineState)
    (input : Option MP.Landmarks) (now : ℚ) :
    (MP.onFaceResults sq s input now).challenges = s.challenges := by
  rcases input with _ | lm
  · rfl
  · unfold MP.onFaceResults
    dsimp only
    split
    · rfl
    · rw [processValidMetrics_challenges]

theorem onFaceResults_history_length (sq : ℚ → ℚ) (s : MP.EngineState)
    (input : Option MP.Landmarks) (now : ℚ)
    (h : s.history.length ≤ MP.METRICS_HISTORY_SIZE) :
    (MP.onFaceResults sq s input now).history.length ≤ MP.METRICS_HISTORY_SIZE := by
  rcases input with _ | lm
  · exact h
  · unfold MP.onFaceResults
    dsimp only
    split
    · exact h
    · rw [processValidMetrics_history]
      unfold MP.pushHistory
      dsimp only
      split
      · simp only [List.length_drop, List.length_append, List.length_cons, List.length_nil]
        omega
      · next hgt => simp only [List.length_append, List.length_cons, List.length_nil] at hgt ⊢; omega

/-! ## Further helper lemmas for concrete evaluations -/

theorem restingM_fails_blink :
    MP.detectChallenge MP.ChallengeType.blink restingM demoBaseline = false := by
  simp only [MP.detectChallenge, restingM, demoBaseline, MP.BLINK_THRESHOLD]
  rw [decide_eq_false_iff_not]
  norm_num

theorem restingM_not_detected_demoC1s :
    MP.currentDetected demoC1s restingM demoBaseline = false := by
  simp [MP.currentDetected, demoC1s, restingM_fails_blink]

theorem restingM_not_detected_demoC7s :
    MP.currentDetected demoC7s restingM demoBaseline = false := by
  simp [MP.currentDetected, demoC7s, demoC1s, restingM_fails_blink]

theorem processChallenge_fail_holdFrames (s : MP.EngineState) (m b : MP.BaselineMetrics)
    (hb : s.baseline = some b) (hfail : MP.currentDetected s m b = false) :
    (MP.processChallenge s m).holdFrames = max 0 (s.holdFrames - 2) := by
  simp only [MP.processChallenge, hb]
  rw [if_neg (by simp [hfail])]

theorem zeroFrame_invalid : MP.validateFaceGeometry zeroFrame = false := by
  simp only [MP.validateFaceGeometry, zeroFrame]
  norm_num

/-! ## Claim C1 — hold-counter hysteresis -/

/-- Claim C1 counterexample: in a challenge state with hold counter N = 1
(so 1 ≤ N < requiredHoldFrames), a single failing frame sets the counter
to 0 — the decrement-by-2 zeroes it, contradicting the claim that a
failing frame decrements without zeroing for all such N. -/
theorem C1_counterexample :
    demoC1s.holdFrames = 1
    ∧ (1 : ℤ) ≤ demoC1s.holdFrames
    ∧ demoC1s.holdFrames < MP.HOLD_REQUIRED
    ∧ demoC1s.baseline = some demoBaseline
    ∧ MP.currentDetected demoC1s restingM demoBaseline = false
    ∧ (MP.processChallenge demoC1s restingM).holdFrames = 0 := by
  refine ⟨rfl, by decide, by decide, rfl, restingM_not_detected_demoC1s, ?_⟩
  rw [processChallenge_fail_holdFrames demoC1s restingM demoBaseline rfl
    restingM_not_detected_demoC1s]
  decide

/-- Claim C1 (amended): a frame failing the current challenge predicate
updates the hold counter to max(0, N - 2) — zeroing it when N ≤ 2 and
leaving it positive (N - 2) when 3 ≤ N — and the counter is never
negative in any state reachable by the per-frame callback. -/
theorem C1_hold_decay (s : MP.EngineState) (m b : MP.BaselineMetrics)
    (hb : s.baseline = some b) (hfail : MP.currentDetected s m b = false) :
    ((MP.processChallenge s m).holdFrames = max 0 (s.holdFrames - 2)
      ∧ 0 ≤ (MP.processChallenge s m).holdFrames
      ∧ (3 ≤ s.holdFrames →
          (MP.processChallenge s m).holdFrames = s.holdFrames - 2
          ∧ 0 < (MP.processChallenge s m).holdFrames))
    ∧ (∀ (sq : ℚ → ℚ) (s' : MP.EngineState) (input : Option MP.Landmarks) (now : ℚ),
        0 ≤ s'.holdFrames → 0 ≤ (MP.onFaceResults sq s' input now).holdFrames) := by
  have hpc : (MP.processChallenge s m).holdFrames = max 0 (s.holdFrames - 2) :=
    processChallenge_fail_holdFrames s m b hb hfail
  refine ⟨⟨hpc, ?_, ?_⟩,
    fun sq s' input now h => onFaceResults_holdFrames_nonneg sq s' input now h⟩
  · rw [hpc]
    exact le_max_left 0 _
  · intro h3
    rw [hpc, max_eq_right (by omega)]
    omega

/-- Claim C1 witness: the amended statement evaluated at a concrete state
with three accumulated hold frames. -/
theorem C1_hold_decay_witness :
    demoC7s.baseline = some demoBaseline
    ∧ MP.currentDetected demoC7s restingM demoBaseline = false
    ∧ (MP.processChallenge demoC7s restingM).holdFrames = max 0 (demoC7s.holdFrames - 2)
    ∧ 0 ≤ (MP.onFaceResults sq0 demoC7s none 0).holdFrames :=
  ⟨rfl, restingM_not_detected_demoC7s,
   (C1_hold_decay demoC7s restingM demoBaseline rfl restingM_not_detected_demoC7s).1.1,
   (C1_hold_decay demoC7s restingM demoBaseline rfl
     restingM_not_detected_demoC7s).2 sq0 demoC7s none 0 (by decide)⟩

/-! ## Claim C5 — EAR division-by-zero guard -/

/-- Claim C5 counterexample: on a frame whose eye corners coincide the
horizontal eye-corner distance is 0, yet the MediaPipe variant's calcEAR
still divides by it — JavaScript would produce a non-finite value and the
total model returns 0 — and in particular it does not return the
documented open-eye fallback 0.3. -/
theorem C5_counterexample :
    MP.hypotQ sq0 ((zeroFrame (MP.LEFT_EYE.getD 0 0)).x - (zeroFrame (MP.LEFT_EYE.getD 3 0)).x)
        ((zeroFrame (MP.LEFT_EYE.getD 0 0)).y - (zeroFrame (MP.LEFT_EYE.getD 3 0)).y) = 0
    ∧ MP.calcEAR sq0 zeroFrame MP.LEFT_EYE = 0
    ∧ ¬ MP.calcEAR sq0 zeroFrame MP.LEFT_EYE = 3/10 := by
  refine ⟨rfl, ?_, ?_⟩ <;> norm_num [MP.calcEAR, MP.hypotQ, sq0, zeroFrame]

/-- Claim C5 (amended): the face-api variant's calculateEAR does guard the
division — whenever the horizontal eye-corner distance is zero it returns
the fixed open-eye fallback 0.3 without dividing; the MediaPipe variant's
calcEAR performs the division unguarded (see the counterexample). -/
theorem C5_ear_fallback (sq : ℚ → ℚ) (pts : ℕ → FA.Point)
    (h0 : MP.hypotQ sq ((pts 0).x - (pts 3).x) ((pts 0).y - (pts 3).y) = 0) :
    FA.calculateEAR sq pts = 3/10 := by
  simp only [FA.calculateEAR]
  rw [h0]
  simp

/-- Claim C5 witness: the amended statement evaluated on a degenerate eye
contour whose six points coincide. -/
theorem C5_ear_fallback_witness :
    MP.hypotQ sq0 ((zeroEye 0).x - (zeroEye 3).x) ((zeroEye 0).y - (zeroEye 3).y) = 0
    ∧ FA.calculateEAR sq0 zeroEye = 3/10 :=
  ⟨rfl, C5_ear_fallback sq0 zeroEye rfl⟩

/-! ## Claim C6 — invalid geometry pauses like no-face -/

/-- Claim C6: a frame rejected for invalid face geometry affects the
challenge state machine exactly like a no-face frame: in both cases the
hold counter and the challenge index are left unchanged (progress pauses
and is not reset). -/
theorem C6_invalid_like_noface (sq : ℚ → ℚ) (s : MP.EngineState) (lm : MP.Landmarks)
    (now : ℚ) (hinv : MP.validateFaceGeometry lm = false) :
    (MP.onFaceResults sq s (some lm) now).holdFrames = s.holdFrames
    ∧ (MP.onFaceResults sq s (some lm) now).challengeIndex = s.challengeIndex
    ∧ (MP.onFaceResults sq s none now).holdFrames = s.holdFrames
    ∧ (MP.onFaceResults sq s none now).challengeIndex = s.challengeIndex := by
  refine ⟨?_, ?_, rfl, rfl⟩ <;> simp [MP.onFaceResults, hinv]

/-- Claim C6 witness: evaluated at a mid-challenge state and the
degenerate all-zero frame, which fails geometry validation. -/
theorem C6_invalid_like_noface_witness :
    MP.validateFaceGeometry zeroFrame = false
    ∧ (MP.onFaceResults sq0 demoC1s (some zeroFrame) 0).holdFrames = demoC1s.holdFrames
    ∧ (MP.onFaceResults sq0 demoC1s none 0).challengeIndex = demoC1s.challengeIndex :=
  ⟨zeroFrame_invalid,
   (C6_invalid_like_noface sq0 demoC1s zeroFrame 0 zeroFrame_invalid).1,
   (C6_invalid_like_noface sq0 demoC1s zeroFrame 0 zeroFrame_invalid).2.2.2⟩

/-! ## Claim C7 — dead reset-on-invalid branch -/

/-- Claim C7: the spec (and the source comment on the branch at lines
1367-1371) say the hold counter resets to 0 when face validity is lost
mid-challenge, but that branch is unreachable — invalid frames return
early at line 1334 — so the counter stays at 3 here instead of resetting. -/
theorem C7_no_reset_on_invalid :
    demoC7s.step = MP.StepType.challenge
    ∧ demoC7s.holdFrames = 3
    ∧ MP.validateFaceGeometry zeroFrame = false
    ∧ (MP.onFaceResults sq0 demoC7s (some zeroFrame) 0).holdFrames = 3 := by
  refine ⟨rfl, rfl, zeroFrame_invalid, ?_⟩
  simp [MP.onFaceResults, zeroFrame_invalid, demoC7s, demoC1s]

/-! ## Claim C9 — bounded FIFO metrics history -/

/-- Claim C9: processing a validated frame appends its metrics to the
history; the history never exceeds METRICS_HISTORY_SIZE = 60 entries,
below the bound the entry is appended with nothing evicted, at the bound
exactly the oldest entry is evicted (FIFO), and every frame — face or no
face — preserves the bound. -/
theorem C9_history_window (s : MP.EngineState) (m : MP.Metrics)
    (hlen : s.history.length ≤ MP.METRICS_HISTORY_SIZE) :
    (MP.processValidMetrics s m).history.length ≤ MP.METRICS_HISTORY_SIZE
    ∧ (s.history.length < MP.METRICS_HISTORY_SIZE →
        (MP.processValidMetrics s m).history = s.history ++ [m])
    ∧ (s.history.length = MP.METRICS_HISTORY_SIZE →
        (MP.processValidMetrics s m).history = s.history.drop 1 ++ [m])
    ∧ (∀ (sq : ℚ → ℚ) (input : Option MP.Landmarks) (now : ℚ),
        (MP.onFaceResults sq s input now).history.length ≤ MP.METRICS_HISTORY_SIZE) := by
  rw [processValidMetrics_history]
  refine ⟨?_, ?_, ?_, fun sq input now => onFaceResults_history_length sq s input now hlen⟩
  · unfold MP.pushHistory
    dsimp only
    split
    · simp only [List.length_drop, List.length_append, List.length_cons, List.length_nil]
      omega
    · next hgt =>
      simp only [not_lt, gt_iff_lt, not_lt] at hgt
      omega
  · intro hlt
    unfold MP.pushHistory
    dsimp only
    rw [if_neg (by
      simp only [gt_iff_lt, not_lt, List.length_append, List.length_cons, List.length_nil]
      omega)]
  · intro heq
    unfold MP.pushHistory
    dsimp only
    rw [if_pos (by
      simp only [gt_iff_lt, List.length_append, List.length_cons, List.length_nil]
      omega)]
    rw [List.drop_append_of_le_length (by rw [heq]; decide)]

/-- Claim C9 witness: evaluated at a state whose history is exactly full,
checking the bound and the FIFO eviction shape. -/
theorem C9_history_window_witness :
    s60.history.length ≤ MP.METRICS_HISTORY_SIZE
    ∧ (MP.processValidMetrics s60 zeroMetric).history.length ≤ MP.METRICS_HISTORY_SIZE
    ∧ (MP.processValidMetrics s60 zeroMetric).history = s60.history.drop 1 ++ [zeroMetric] :=
  ⟨by simp [s60, demoC1s, MP.METRICS_HISTORY_SIZE],
   (C9_history_window s60 zeroMetric
     (by simp [s60, demoC1s, MP.METRICS_HISTORY_SIZE])).1,
   (C9_history_window s60 zeroMetric
     (by simp [s60, demoC1s, MP.METRICS_HISTORY_SIZE])).2.2.1
     (by simp [s60, demoC1s, MP.METRICS_HISTORY_SIZE])⟩

/-! ## Claim C10 — short history scores zero -/

/-- Claim C10: with fewer than 20 history entries the anti-spoof scorer
returns exactly 0, whatever the entries contain, and a score of 0 is
strictly below MIN_SPOOF_SCORE, so the acceptance gate rejects the
session. -/
theorem C10_short_history_scores_zero (history : List MP.Metrics)
    (hlen : history.length < 20) :
    MP.calcSpoofScore history = 0
    ∧ MP.scoreRejected (MP.calcSpoofScore history) = true := by
  have h0 : MP.calcSpoofScore history = 0 := by
    unfold MP.calcSpoofScore
    rw [if_pos hlen]
  refine ⟨h0, ?_⟩
  rw [h0]
  simp only [MP.scoreRejected, MP.MIN_SPOOF_SCORE, decide_eq_true_eq]
  norm_num

/-- Claim C10 witness: the empty history. -/
theorem C10_short_history_scores_zero_witness :
    MP.calcSpoofScore [] = 0 ∧ MP.scoreRejected (MP.calcSpoofScore []) = true :=
  C10_short_history_scores_zero [] (by decide)

/-! ## Claim C2 — baseline establishment -/

/-- Claim C2 counterexample: feeding the tenth validated frame (eye
openness 1) to a session whose first nine validated frames all had eye
openness 0 sets the baseline to the tenth frame's metrics, while the
arithmetic mean of the first ten frames' eye openness is 1/10 ≠ 1 — the
baseline is not the mean of the first K validated frames. -/
theorem C2_counterexample :
    (MP.processValidMetrics c2nine mTen).baseline
      = some { ear := 1, mouth := 1/2, turn := 0 }
    ∧ ((c2nine.history ++ [mTen]).map MP.Metrics.ear).sum
        / ((c2nine.history ++ [mTen]).length : ℚ) = 1/10
    ∧ ¬ ((1 : ℚ) = 1/10) := by
  refine ⟨?_, ?_, by norm_num⟩
  · simp [MP.processValidMetrics, MP.pushHistory, MP.calcSpoofScore,
      MP.METRICS_HISTORY_SIZE, c2nine, demoC1s, mTen, zeroMetric]
  · simp [c2nine, demoC1s, mTen, zeroMetric, List.map_append, List.map_replicate,
      List.sum_replicate]

/-- Claim C2 (amended): the baseline is set — at most once per session —
to the metrics of the tenth validated frame (the frame that brings the
history length to exactly 10), never overwritten once present; the blink
and smile predicates compare against it, while the two head-turn
predicates compare the turn metric against the fixed constant
TURN_THRESHOLD and ignore the baseline entirely. -/
theorem C2_baseline_once (s : MP.EngineState) (m : MP.Metrics) :
    ((MP.pushHistory s.history m).length = 10 → s.baseline = none →
      (MP.processValidMetrics s m).baseline
        = some { ear := m.ear, mouth := m.mouth, turn := m.turn })
    ∧ (∀ b, s.baseline = some b → (MP.processValidMetrics s m).baseline = some b)
    ∧ (∀ (mm b₁ b₂ : MP.BaselineMetrics),
        MP.detectChallenge .turnLeft mm b₁ = MP.detectChallenge .turnLeft mm b₂
        ∧ MP.detectChallenge .turnRight mm b₁ = MP.detectChallenge .turnRight mm b₂) := by
  refine ⟨?_, fun b hb => processValidMetrics_baseline_some s m b hb,
    fun mm b₁ b₂ => ⟨rfl, rfl⟩⟩
  intro hlen hnone
  unfold MP.processValidMetrics
  dsimp only
  rw [hnone, hlen]
  norm_num
  split
  · rw [processChallenge_baseline]
  · rfl

/-- Claim C2 witness: the amended statement evaluated at the
nine-entry-history state (baseline set to the tenth frame) and at a state
whose baseline is already present (baseline preserved). -/
theorem C2_baseline_once_witness :
    (MP.processValidMetrics c2nine mTen).baseline
      = some { ear := mTen.ear, mouth := mTen.mouth, turn := mTen.turn }
    ∧ (MP.processValidMetrics demoC1s mTen).baseline = some demoBaseline :=
  ⟨(C2_baseline_once c2nine mTen).1
      (by simp [MP.pushHistory, MP.METRICS_HISTORY_SIZE, c2nine, demoC1s]) rfl,
   (C2_baseline_once demoC1s mTen).2.1 demoBaseline rfl⟩

/-! ## Claim C4 — static histories and the score gate -/

theorem calcSpoofScore_static (history : List MP.Metrics) (c : ℚ)
    (hlen : 20 ≤ history.length)
    (hmov : ∀ m ∈ history, m.movement = 0)
    (hear : ∀ m ∈ history, m.ear = c) :
    MP.calcSpoofScore history = 3/10 := by
  unfold MP.calcSpoofScore
  rw [if_neg (by omega)]
  dsimp only
  have hms : ((history.drop (history.length - 20)).map MP.Metrics.movement).sum = 0 := by
    apply List.sum_eq_zero
    intro x hx
    rcases List.mem_map.mp hx with ⟨mm, hmm, rfl⟩
    exact hmov mm (List.mem_of_mem_drop hmm)
  have hL : (0 : ℚ) < (((history.drop (history.length - 30)).map MP.Metrics.ear).length : ℚ) := by
    have : 0 < ((history.drop (history.length - 30)).map MP.Metrics.ear).length := by
      simp only [List.length_map, List.length_drop]
      omega
    exact_mod_cast this
  have hearsAll : ∀ x ∈ (history.drop (history.length - 30)).map MP.Metrics.ear, x = c := by
    intro x hx
    rcases List.mem_map.mp hx with ⟨mm, hmm, rfl⟩
    exact hear mm (List.mem_of_mem_drop hmm)
  have hmean : ((history.drop (history.length - 30)).map MP.Metrics.ear).sum
      / ((((history.drop (history.length - 30)).map MP.Metrics.ear).length : ℕ) : ℚ) = c := by
    rw [List.sum_eq_card_nsmul _ c hearsAll, nsmul_eq_mul,
      mul_div_cancel_left₀ _ (ne_of_gt hL)]
  rw [hms, zero_div]
  simp only [hmean]
  have hvar : (((history.drop (history.length - 30)).map MP.Metrics.ear).map
      (fun e => (e - c) ^ 2)).sum = 0 := by
    apply List.sum_eq_zero
    intro x hx
    rcases List.mem_map.mp hx with ⟨e, he, rfl⟩
    rw [hearsAll e he]
    ring
  rw [hvar, zero_div]
  rw [if_neg (by norm_num), if_neg (by norm_num)]
  norm_num

/-- Claim C4 counterexample: a 20-entry history with zero inter-frame
movement everywhere and the eye openness pinned flat scores exactly 0.3 —
the hard-coded depth base credit — which is not strictly below
MIN_SPOOF_SCORE = 0.3, so the acceptance gate in verifyLiveness does not
reject the session. -/
theorem C4_counterexample :
    h20.length = 20
    ∧ (∀ m ∈ h20, m.movement = 0 ∧ m.ear = 0)
    ∧ MP.calcSpoofScore h20 = 3/10
    ∧ MP.scoreRejected (MP.calcSpoofScore h20) = false := by
  have hsc : MP.calcSpoofScore h20 = 3/10 :=
    calcSpoofScore_static h20 0 (by simp [h20]) (by simp [h20, zeroMetric])
      (by simp [h20, zeroMetric])
  refine ⟨by simp [h20], by simp [h20, zeroMetric], hsc, ?_⟩
  rw [hsc]
  simp only [MP.scoreRejected, MP.MIN_SPOOF_SCORE, decide_eq_false_iff_not]
  norm_num

/-- Claim C4 (amended): for every history of at least 20 entries whose
inter-frame movement is exactly zero everywhere and whose eye openness is
pinned flat, the anti-spoof scorer returns exactly 0.3 (the movement and
eye-variance components contribute nothing and the depth component is the
constant 0.3), which equals MIN_SPOOF_SCORE, so the strict-below
acceptance gate does not reject the session. -/
theorem C4_static_score (history : List MP.Metrics) (c : ℚ)
    (hlen : 20 ≤ history.length)
    (hmov : ∀ m ∈ history, m.movement = 0)
    (hear : ∀ m ∈ history, m.ear = c) :
    MP.calcSpoofScore history = 3/10
    ∧ MP.calcSpoofScore history = MP.MIN_SPOOF_SCORE
    ∧ MP.scoreRejected (MP.calcSpoofScore history) = false := by
  have hsc := calcSpoofScore_static history c hlen hmov hear
  refine ⟨hsc, hsc, ?_⟩
  rw [hsc]
  simp only [MP.scoreRejected, MP.MIN_SPOOF_SCORE, decide_eq_false_iff_not]
  norm_num

/-- Claim C4 witness: the amended statement evaluated at a 25-entry flat
history with eye openness 1/2. -/
theorem C4_static_score_witness :
    MP.calcSpoofScore h25 = 3/10
    ∧ MP.scoreRejected (MP.calcSpoofScore h25) = false :=
  ⟨(C4_static_score h25 (1/2) (by simp [h25]) (by simp [h25]) (by simp [h25])).1,
   (C4_static_score h25 (1/2) (by simp [h25]) (by simp [h25]) (by simp [h25])).2.2⟩

/-! ## Claim C8 — shuffle is a permutation, drawn once -/

theorem cons_set_perm {α : Type _} (xs : List α) :
    ∀ (k : ℕ) (a b : α), xs.get? k = some b → (b :: xs.set k a).Perm (a :: xs) := by
  induction xs with
  | nil =>
    intro k a b h
    simp at h
  | cons y ys ih =>
    intro k a b h
    cases k with
    | zero =>
      simp only [List.get?_cons_zero, Option.some.injEq] at h
      subst h
      simp only [List.set]
      exact List.Perm.swap a y ys
    | succ k =>
      simp only [List.get?_cons_succ] at h
      simp only [List.set]
      have h1 : (b :: y :: ys.set k a).Perm (y :: b :: ys.set k a) := List.Perm.swap y b _
      have h2 : (y :: b :: ys.set k a).Perm (y :: a :: ys) := List.Perm.cons y (ih k a b h)
      have h3 : (y :: a :: ys).Perm (a :: y :: ys) := List.Perm.swap a y ys
      exact (h1.trans h2).trans h3

theorem set_set_perm {α : Type _} (l : List α) :
    ∀ (i j : ℕ) (a b : α), l.get? i = some a → l.get? j = some b →
      ((l.set i b).set j a).Perm l := by
  induction l with
  | nil =>
    intro i j a b ha
    simp at ha
  | cons x xs ih =>
    intro i j a b ha hb
    cases i with
    | zero =>
      simp only [List.get?_cons_zero, Option.some.injEq] at ha
      subst ha
      cases j with
      | zero =>
        simp only [List.get?_cons_zero, Option.some.injEq] at hb
        subst hb
        simp [List.set]
      | succ k =>
        simp only [List.get?_cons_succ] at hb
        simp only [List.set]
        exact cons_set_perm xs k x b hb
    | succ k =>
      cases j with
      | zero =>
        simp only [List.get?_cons_succ] at ha
        simp only [List.get?_cons_zero, Option.some.injEq] at hb
        subst hb
        simp only [List.set]
        exact cons_set_perm xs k x a ha
      | succ n =>
        simp only [List.get?_cons_succ] at ha hb
        simp only [List.set]
        exact List.Perm.cons x (ih k n a b ha hb)

theorem swapAt_perm {α : Type _} (l : List α) (i j : ℕ) : (MP.swapAt l i j).Perm l := by
  unfold MP.swapAt
  split
  · next a b ha hb => exact set_set_perm l i j a b ha hb
  · exact List.Perm.refl l

theorem shuffleAux_perm {α : Type _} (rand : ℕ → ℕ) :
    ∀ (n : ℕ) (l : List α), (MP.shuffleAux rand n l).Perm l := by
  intro n
  induction n with
  | zero =>
    intro l
    exact List.Perm.refl l
  | succ k ih =>
    intro l
    exact (ih (MP.swapAt l (k + 1) (rand (k + 1)))).trans (swapAt_perm l (k + 1) (rand (k + 1)))

theorem shuffle_perm {α : Type _} (rand : ℕ → ℕ) (l : List α) :
    (MP.shuffle rand l).Perm l :=
  shuffleAux_perm rand (l.length - 1) l

/-- Claim C8: the Fisher-Yates shuffle returns a permutation (same
multiset) of its input for every random source — the input list itself is
immutable; startChallenges draws the session's challenge list as one such
permutation of the full challenge set when the challenge phase starts;
and the per-frame callback never modifies the challenge list, so it is
never re-shuffled mid-session. -/
theorem C8_shuffle_once (rand : ℕ → ℕ) (s : MP.EngineState)
    (hvalid : s.faceValid = true) :
    (∀ (l : List MP.ChallengeType), (MP.shuffle rand l).Perm l)
    ∧ (MP.startChallenges rand s).challenges
        = MP.shuffle rand [MP.ChallengeType.blink, .smile, .turnLeft, .turnRight]
    ∧ (MP.shuffle rand [MP.ChallengeType.blink, .smile, .turnLeft, .turnRight]).Perm
        [MP.ChallengeType.blink, .smile, .turnLeft, .turnRight]
    ∧ (∀ (sq : ℚ → ℚ) (s' : MP.EngineState) (input : Option MP.Landmarks) (now : ℚ),
        (MP.onFaceResults sq s' input now).challenges = s'.challenges) := by
  refine ⟨fun l => shuffle_perm rand l, ?_, shuffle_perm rand _,
    fun sq s' input now => onFaceResults_challenges sq s' input now⟩
  unfold MP.startChallenges
  rw [if_neg (by simp [hvalid])]

/-- Claim C8 witness: evaluated with the constant random source and a
valid-face state. -/
theorem C8_shuffle_once_witness :
    demoC1s.faceValid = true
    ∧ (MP.startChallenges rand0 demoC1s).challenges
        = MP.shuffle rand0 [MP.ChallengeType.blink, .smile, .turnLeft, .turnRight]
    ∧ (MP.shuffle rand0 [MP.ChallengeType.blink, .smile, .turnLeft, .turnRight]).Perm
        [MP.ChallengeType.blink, .smile, .turnLeft, .turnRight] :=
  ⟨rfl, (C8_shuffle_once rand0 demoC1s rfl).2.1, (C8_shuffle_once rand0 demoC1s rfl).2.2.1⟩

/-! ## Claim C3 — two-phase blink detection -/

theorem squint_detected :
    MP.detectChallenge MP.ChallengeType.blink squintEMT demoBaseline = true := by
  simp only [MP.detectChallenge, squintEMT, demoBaseline, MP.BLINK_THRESHOLD]
  rw [decide_eq_true_eq]
  norm_num

/-- Claim C3 counterexample: in the MediaPipe variant the blink predicate
is a single threshold, so a sustained squint — four consecutive frames
whose eye openness stays below baseline × 0.6 and never recovers —
completes the blink challenge (driving the last challenge of the session
into the verifying step), contradicting the claim that such a sequence
never completes the blink. -/
theorem C3_counterexample :
    demoC3s.challenges = [MP.ChallengeType.blink]
    ∧ squintEMT.ear < demoBaseline.ear * MP.BLINK_THRESHOLD
    ∧ (List.foldl MP.processChallenge demoC3s (List.replicate 4 squintEMT)).step
        = MP.StepType.verifying := by
  refine ⟨rfl, by norm_num [squintEMT, demoBaseline, MP.BLINK_THRESHOLD], ?_⟩
  simp only [List.replicate, List.foldl]
  norm_num [MP.processChallenge, MP.currentDetected, demoC3s, demoC1s,
    squint_detected, MP.HOLD_REQUIRED]

theorem FA_complete_run (l : List ℚ) :
    ∀ st : FA.BlinkSt, st.complete = true → List.foldl FA.blinkFrame st l = st := by
  induction l with
  | nil =>
    intro st _
    rfl
  | cons e rest ih =>
    intro st hc
    rw [List.foldl_cons]
    have hstep : FA.blinkFrame st e = st := by
      unfold FA.blinkFrame
      rw [if_pos hc]
    rw [hstep]
    exact ih st hc

theorem FA_cal_run (l : List ℚ) :
    ∀ st : FA.BlinkSt, st.complete = false →
      st.earValues.length + l.length ≤ 7 →
      List.foldl FA.blinkFrame st l = { st with earValues := st.earValues ++ l } := by
  induction l with
  | nil =>
    intro st _ _
    simp
  | cons e rest ih =>
    intro st hc hlen
    simp only [List.length_cons] at hlen
    rw [List.foldl_cons]
    have hstep : FA.blinkFrame st e = { st with earValues := st.earValues ++ [e] } := by
      unfold FA.blinkFrame
      rw [if_neg (by simp [hc])]
      dsimp only
      have hev : (if (st.earValues ++ [e]).length > 60
          then (st.earValues ++ [e]).drop 1 else st.earValues ++ [e])
          = st.earValues ++ [e] :=
        if_neg (by simp only [gt_iff_lt, not_lt, List.length_append, List.length_singleton]; omega)
      rw [hev]
      rw [if_pos (by simp only [List.length_append, List.length_singleton]; omega)]
    rw [hstep]
    rw [ih _ (by simp [hc]) (by simp only [List.length_append, List.length_singleton]; omega)]
    simp

theorem FA_waitstay_step (st : FA.BlinkSt) (e : ℚ)
    (hc : st.complete = false) (hph : st.phase = FA.BlinkPhase.waiting)
    (h7 : 7 ≤ st.earValues.length) (h60 : st.earValues.length + 1 ≤ 60)
    (hge : ¬ (e < ((st.earValues ++ [e]).take 8).sum / 8 * (7/10))) :
    FA.blinkFrame st e = { st with earValues := st.earValues ++ [e] } := by
  unfold FA.blinkFrame
  rw [if_neg (by simp [hc])]
  dsimp only
  have hev : (if (st.earValues ++ [e]).length > 60
      then (st.earValues ++ [e]).drop 1 else st.earValues ++ [e])
      = st.earValues ++ [e] :=
    if_neg (by simp only [gt_iff_lt, not_lt, List.length_append, List.length_singleton]; omega)
  rw [hev]
  rw [if_neg (by simp only [not_lt, List.length_append, List.length_singleton]; omega)]
  rw [hph]
  dsimp only
  rw [if_neg hge]

theorem FA_close_step (st : FA.BlinkSt) (e : ℚ)
    (hc : st.complete = false) (hph : st.phase = FA.BlinkPhase.waiting)
    (h7 : 7 ≤ st.earValues.length) (h60 : st.earValues.length + 1 ≤ 60)
    (hlt : e < ((st.earValues ++ [e]).take 8).sum / 8 * (7/10)) :
    FA.blinkFrame st e
      = { st with earValues := st.earValues ++ [e], phase := FA.BlinkPhase.closed } := by
  unfold FA.blinkFrame
  rw [if_neg (by simp [hc])]
  dsimp only
  have hev : (if (st.earValues ++ [e]).length > 60
      then (st.earValues ++ [e]).drop 1 else st.earValues ++ [e])
      = st.earValues ++ [e] :=
    if_neg (by simp only [gt_iff_lt, not_lt, List.length_append, List.length_singleton]; omega)
  rw [hev]
  rw [if_neg (by simp only [not_lt, List.length_append, List.length_singleton]; omega)]
  rw [hph]
  dsimp only
  rw [if_pos hlt]

theorem FA_open_step (st : FA.BlinkSt) (e : ℚ)
    (hc : st.complete = false) (hph : st.phase = FA.BlinkPhase.closed)
    (h7 : 7 ≤ st.earValues.length) (h60 : st.earValues.length + 1 ≤ 60)
    (hgt : e > ((st.earValues ++ [e]).take 8).sum / 8 * (85/100)) :
    FA.blinkFrame st e
      = { st with earValues := st.earValues ++ [e], phase := FA.BlinkPhase.done,
                  blinkCount := st.blinkCount + 1, complete := true } := by
  unfold FA.blinkFrame
  rw [if_neg (by simp [hc])]
  dsimp only
  have hev : (if (st.earValues ++ [e]).length > 60
      then (st.earValues ++ [e]).drop 1 else st.earValues ++ [e])
      = st.earValues ++ [e] :=
    if_neg (by simp only [gt_iff_lt, not_lt, List.length_append, List.length_singleton]; omega)
  rw [hev]
  rw [if_neg (by simp only [not_lt, List.length_append, List.length_singleton]; omega)]
  rw [hph]
  dsimp only
  rw [if_pos hgt]

theorem FA_waiting_run (l : List ℚ) :
    ∀ st : FA.BlinkSt, st.complete = false → st.phase = FA.BlinkPhase.waiting →
      8 ≤ st.earValues.length → st.earValues.length + l.length ≤ 60 →
      (∀ x ∈ l, ¬ (x < (st.earValues.take 8).sum / 8 * (7/10))) →
      List.foldl FA.blinkFrame st l = { st with earValues := st.earValues ++ l } := by
  induction l with
  | nil =>
    intro st _ _ _ _ _
    simp
  | cons e rest ih =>
    intro st hc hph h8 hlen hall
    simp only [List.length_cons] at hlen
    rw [List.foldl_cons]
    have htake : (st.earValues ++ [e]).take 8 = st.earValues.take 8 :=
      List.take_append_of_le_length (by omega)
    have hstep : FA.blinkFrame st e = { st with earValues := st.earValues ++ [e] } := by
      apply FA_waitstay_step st e hc hph (by omega) (by omega)
      rw [htake]
      exact hall e (List.mem_cons_self e rest)
    rw [hstep]
    rw [ih _ (by simp [hc]) (by simp [hph])
      (by simp only [List.length_append, List.length_singleton]; omega)
      (by simp only [List.length_append, List.length_singleton]; omega)
      (by
        intro x hx
        have hmem := hall x (List.mem_cons_of_mem e hx)
        simpa [htake] using hmem)]
    simp

theorem FA_closed_run (l : List ℚ) :
    ∀ st : FA.BlinkSt, st.complete = false → st.phase = FA.BlinkPhase.closed →
      8 ≤ st.earValues.length → st.earValues.length + l.length ≤ 60 →
      (∀ x ∈ l, ¬ (x > (st.earValues.take 8).sum / 8 * (85/100))) →
      List.foldl FA.blinkFrame st l = { st with earValues := st.earValues ++ l } := by
  induction l with
  | nil =>
    intro st _ _ _ _ _
    simp
  | cons e rest ih =>
    intro st hc hph h8 hlen hall
    simp only [List.length_cons] at hlen
    rw [List.foldl_cons]
    have htake : (st.earValues ++ [e]).take 8 = st.earValues.take 8 :=
      List.take_append_of_le_length (by omega)
    have hstep : FA.blinkFrame st e = { st with earValues := st.earValues ++ [e] } := by
      unfold FA.blinkFrame
      rw [if_neg (by simp [hc])]
      dsimp only
      have hev : (if (st.earValues ++ [e]).length > 60
          then (st.earValues ++ [e]).drop 1 else st.earValues ++ [e])
          = st.earValues ++ [e] :=
        if_neg (by simp only [gt_iff_lt, not_lt, List.length_append, List.length_singleton]; omega)
      rw [hev]
      rw [if_neg (by simp only [not_lt, List.length_append, List.length_singleton]; omega)]
      rw [hph]
      dsimp only
      rw [htake]
      rw [if_neg (hall e (List.mem_cons_self e rest))]
    rw [hstep]
    rw [ih _ (by simp [hc]) (by simp [hph])
      (by simp only [List.length_append, List.length_singleton]; omega)
      (by simp only [List.length_append, List.length_singleton]; omega)
      (by
        intro x hx
        have hmem := hall x (List.mem_cons_of_mem e hx)
        simpa [htake] using hmem)]
    simp

theorem FA_drift_step (st : FA.BlinkSt) (e : ℚ)
    (hc : st.complete = false) (hph : st.phase = FA.BlinkPhase.closed)
    (hfull : st.earValues.length = 60)
    (hall : ∀ x ∈ st.earValues, x = e) (hpos : 0 < e) :
    (FA.blinkFrame st e).complete = true
    ∧ (FA.blinkFrame st e).blinkCount = st.blinkCount + 1
    ∧ (FA.blinkFrame st e).phase = FA.BlinkPhase.done := by
  have hmem : ∀ x ∈ ((st.earValues ++ [e]).drop 1).take 8, x = e := by
    intro x hx
    have hx1 := List.mem_of_mem_take hx
    have hx2 := List.mem_of_mem_drop hx1
    rcases List.mem_append.mp hx2 with h | h
    · exact hall x h
    · simpa using h
  have hlen8 : (((st.earValues ++ [e]).drop 1).take 8).length = 8 := by
    simp only [List.length_take, List.length_drop, List.length_append,
      List.length_singleton]
    omega
  have hsum : (((st.earValues ++ [e]).drop 1).take 8).sum = 8 * e := by
    rw [List.sum_eq_card_nsmul _ e hmem, hlen8, nsmul_eq_mul]
    norm_num
  have hgt : e > (((st.earValues ++ [e]).drop 1).take 8).sum / 8 * (85/100) := by
    rw [hsum]
    have h1 : e * (85/100) < e * 1 :=
      mul_lt_mul_of_pos_left (by norm_num) hpos
    rw [mul_one] at h1
    have h2 : (8 : ℚ) * e / 8 = e := by ring
    rw [h2]
    exact h1
  have hstep : FA.blinkFrame st e
      = { st with earValues := (st.earValues ++ [e]).drop 1, phase := .done,
                  blinkCount := st.blinkCount + 1, complete := true } := by
    unfold FA.blinkFrame
    rw [if_neg (by simp [hc])]
    dsimp only
    have hev : (if (st.earValues ++ [e]).length > 60
        then (st.earValues ++ [e]).drop 1 else st.earValues ++ [e])
        = (st.earValues ++ [e]).drop 1 :=
      if_pos (by simp only [gt_iff_lt, List.length_append, List.length_singleton]; omega)
    rw [hev]
    rw [if_neg (by
      simp only [not_lt, List.length_drop, List.length_append, List.length_singleton]
      omega)]
    rw [hph]
    dsimp only
    rw [if_pos hgt]
  rw [hstep]
  exact ⟨rfl, rfl, rfl⟩

/-- Claim C3 (amended): in the face-api variant the blink detector is
two-phase within the un-shifted EAR window.  For a scripted sequence made
of an 8-frame calibration prefix (baseline = mean of its 8 EAR samples,
the 8th not below the close threshold), waiting frames not below
baseline × 0.70, a drop below baseline × 0.70, closed frames not above
baseline × 0.85, a recovery above baseline × 0.85 and an arbitrary tail,
with the pre-recovery frames fitting inside the 60-sample buffer
(10 + waiting + closed frames ≤ 60): exactly one blink is registered, at
the recovery; stopping before the recovery leaves the detector closed
with no blink registered.  The guarantee is window-bounded only: once the
buffer shifts, slice(0,8) drifts toward the held value, and from the
drifted state — buffer entirely at the squint value e > 0 — the very next
squint frame satisfies the reopen check e > e × 0.85 and registers a
blink with the eyes still closed (the last conjunct; in a sustained
squint after calibration at 0.3 this fires around frame 68).  The
MediaPipe variant does not satisfy the claim at all (see the
counterexample). -/
theorem C3_two_phase_blink
    (c7 : List ℚ) (c8 : ℚ) (w : List ℚ) (d : ℚ) (mid : List ℚ) (r : ℚ) (post : List ℚ)
    (hc7 : c7.length = 7)
    (hlen : 10 + w.length + mid.length ≤ 60)
    (hc8 : ¬ (c8 < (c7 ++ [c8]).sum / 8 * (7/10)))
    (hw : ∀ x ∈ w, ¬ (x < (c7 ++ [c8]).sum / 8 * (7/10)))
    (hd : d < (c7 ++ [c8]).sum / 8 * (7/10))
    (hmid : ∀ x ∈ mid, ¬ (x > (c7 ++ [c8]).sum / 8 * (85/100)))
    (hr : r > (c7 ++ [c8]).sum / 8 * (85/100)) :
    ((List.foldl FA.blinkFrame FA.blinkInit
        (c7 ++ [c8] ++ w ++ [d] ++ mid ++ [r] ++ post)).blinkCount = 1
      ∧ (List.foldl FA.blinkFrame FA.blinkInit
          (c7 ++ [c8] ++ w ++ [d] ++ mid ++ [r] ++ post)).complete = true)
    ∧ ((List.foldl FA.blinkFrame FA.blinkInit (c7 ++ [c8] ++ w ++ [d] ++ mid)).blinkCount = 0
      ∧ (List.foldl FA.blinkFrame FA.blinkInit (c7 ++ [c8] ++ w ++ [d] ++ mid)).complete = false
      ∧ (List.foldl FA.blinkFrame FA.blinkInit (c7 ++ [c8] ++ w ++ [d] ++ mid)).phase
          = FA.BlinkPhase.closed)
    ∧ (∀ (st : FA.BlinkSt) (e : ℚ), st.complete = false →
        st.phase = FA.BlinkPhase.closed → st.earValues.length = 60 →
        (∀ x ∈ st.earValues, x = e) → 0 < e →
        (FA.blinkFrame st e).complete = true
        ∧ (FA.blinkFrame st e).blinkCount = st.blinkCount + 1) := by
  have hb8 : (c7 ++ [c8]).take 8 = c7 ++ [c8] :=
    List.take_of_length_le (by simp [hc7])
  have hQ : ∀ (tail : List ℚ), ((c7 ++ [c8]) ++ tail).take 8 = c7 ++ [c8] := by
    intro tail
    rw [List.take_append_of_le_length (by simp [hc7]), hb8]
  have hcal : List.foldl FA.blinkFrame FA.blinkInit c7
      = { earValues := c7, phase := .waiting, blinkCount := 0, complete := false } := by
    rw [FA_cal_run c7 FA.blinkInit rfl (by simp [FA.blinkInit, hc7])]
    simp [FA.blinkInit]
  have h8 : FA.blinkFrame
        { earValues := c7, phase := .waiting, blinkCount := 0, complete := false } c8
      = { earValues := c7 ++ [c8], phase := .waiting, blinkCount := 0, complete := false } := by
    rw [FA_waitstay_step _ c8 rfl rfl (by simp [hc7]) (by simp [hc7])
      (by simpa [hb8] using hc8)]
  have hwrun : List.foldl FA.blinkFrame
        { earValues := c7 ++ [c8], phase := .waiting, blinkCount := 0, complete := false } w
      = { earValues := (c7 ++ [c8]) ++ w, phase := .waiting, blinkCount := 0,
          complete := false } := by
    rw [FA_waiting_run w _ rfl rfl (by simp [hc7])
      (by simp only [List.length_append, List.length_singleton, hc7]; omega)
      (by
        intro x hx
        simpa [hb8] using hw x hx)]
  have hdstep : FA.blinkFrame
        { earValues := (c7 ++ [c8]) ++ w, phase := .waiting, blinkCount := 0,
          complete := false } d
      = { earValues := ((c7 ++ [c8]) ++ w) ++ [d], phase := .closed, blinkCount := 0,
          complete := false } := by
    rw [FA_close_step _ d rfl rfl
      (by simp only [List.length_append, List.length_singleton, hc7]; omega)
      (by simp only [List.length_append, List.length_singleton, hc7]; omega)
      (by
        show d < ((((c7 ++ [c8]) ++ w) ++ [d]).take 8).sum / 8 * (7/10)
        rw [List.append_assoc (c7 ++ [c8]) w [d], hQ (w ++ [d])]
        exact hd)]
  have hmidrun : List.foldl FA.blinkFrame
        { earValues := ((c7 ++ [c8]) ++ w) ++ [d], phase := .closed, blinkCount := 0,
          complete := false } mid
      = { earValues := (((c7 ++ [c8]) ++ w) ++ [d]) ++ mid, phase := .closed,
          blinkCount := 0, complete := false } := by
    rw [FA_closed_run mid _ rfl rfl
      (by simp only [List.length_append, List.length_singleton, hc7]; omega)
      (by simp only [List.length_append, List.length_singleton, hc7]; omega)
      (by
        intro x hx
        have hkey : ((((c7 ++ [c8]) ++ w) ++ [d]).take 8) = c7 ++ [c8] := by
          rw [List.append_assoc (c7 ++ [c8]) w [d], hQ (w ++ [d])]
        rw [hkey]
        exact hmid x hx)]
  have hpre : List.foldl FA.blinkFrame FA.blinkInit (c7 ++ [c8] ++ w ++ [d] ++ mid)
      = { earValues := (((c7 ++ [c8]) ++ w) ++ [d]) ++ mid, phase := .closed,
          blinkCount := 0, complete := false } := by
    simp only [List.foldl_append, List.foldl_cons, List.foldl_nil]
    rw [hcal, h8, hwrun, hdstep, hmidrun]
  refine ⟨?_, ⟨by rw [hpre], by rw [hpre], by rw [hpre]⟩,
    fun st e hc hph hfull hall hpos =>
      ⟨(FA_drift_step st e hc hph hfull hall hpos).1,
       (FA_drift_step st e hc hph hfull hall hpos).2.1⟩⟩
  have hrstep : FA.blinkFrame
        { earValues := (((c7 ++ [c8]) ++ w) ++ [d]) ++ mid, phase := .closed,
          blinkCount := 0, complete := false } r
      = { earValues := ((((c7 ++ [c8]) ++ w) ++ [d]) ++ mid) ++ [r], phase := .done,
          blinkCount := 0 + 1, complete := true } := by
    rw [FA_open_step _ r rfl rfl
      (by simp only [List.length_append, List.length_singleton, hc7]; omega)
      (by simp only [List.length_append, List.length_singleton, hc7]; omega)
      (by
        show r > ((((((c7 ++ [c8]) ++ w) ++ [d]) ++ mid) ++ [r]).take 8).sum / 8 * (85/100)
        rw [List.append_assoc (((c7 ++ [c8]) ++ w) ++ [d]) mid [r],
          List.append_assoc ((c7 ++ [c8]) ++ w) [d] (mid ++ [r]),
          List.append_assoc (c7 ++ [c8]) w ([d] ++ (mid ++ [r])),
          hQ (w ++ ([d] ++ (mid ++ [r])))]
        exact hr)]
  have hfull : List.foldl FA.blinkFrame FA.blinkInit
        (c7 ++ [c8] ++ w ++ [d] ++ mid ++ [r] ++ post)
      = { earValues := ((((c7 ++ [c8]) ++ w) ++ [d]) ++ mid) ++ [r], phase := .done,
          blinkCount := 0 + 1, complete := true } := by
    simp only [List.foldl_append, List.foldl_cons, List.foldl_nil]
    rw [hcal, h8, hwrun, hdstep, hmidrun, hrstep]
    exact FA_complete_run post _ rfl
  rw [hfull]
  exact ⟨rfl, rfl⟩

/-- Claim C3 witness: the amended statement evaluated on a concrete
scripted sequence — calibration at EAR 0.3, a drop to 0.1, one more
closed frame, recovery to 0.3 (one blink registered), a trailing frame
that changes nothing — and, for the window-drift conjunct, at the drifted
sustained-squint state, where the next squint frame registers a blink. -/
theorem C3_two_phase_blink_witness :
    ((List.foldl FA.blinkFrame FA.blinkInit
        (List.replicate 7 (3/10 : ℚ) ++ [3/10] ++ [] ++ [1/10] ++ [1/10] ++ [3/10]
          ++ [1/10])).blinkCount = 1
      ∧ (List.foldl FA.blinkFrame FA.blinkInit
          (List.replicate 7 (3/10 : ℚ) ++ [3/10] ++ [] ++ [1/10] ++ [1/10] ++ [3/10]
            ++ [1/10])).complete = true)
    ∧ ((List.foldl FA.blinkFrame FA.blinkInit
        (List.replicate 7 (3/10 : ℚ) ++ [3/10] ++ [] ++ [1/10] ++ [1/10])).blinkCount = 0
      ∧ (List.foldl FA.blinkFrame FA.blinkInit
          (List.replicate 7 (3/10 : ℚ) ++ [3/10] ++ [] ++ [1/10] ++ [1/10])).complete = false
      ∧ (List.foldl FA.blinkFrame FA.blinkInit
          (List.replicate 7 (3/10 : ℚ) ++ [3/10] ++ [] ++ [1/10] ++ [1/10])).phase
          = FA.BlinkPhase.closed)
    ∧ ((FA.blinkFrame driftSquintSt (1/10)).complete = true
      ∧ (FA.blinkFrame driftSquintSt (1/10)).blinkCount = driftSquintSt.blinkCount + 1) := by
  have h := C3_two_phase_blink (List.replicate 7 (3/10)) (3/10) [] (1/10) [1/10] (3/10) [1/10]
    (by simp)
    (by simp)
    (by
      rw [List.sum_append, List.sum_replicate]
      norm_num)
    (by simp)
    (by
      rw [List.sum_append, List.sum_replicate]
      norm_num)
    (by
      intro x hx
      rw [List.mem_singleton] at hx
      subst hx
      rw [List.sum_append, List.sum_replicate]
      norm_num)
    (by
      rw [List.sum_append, List.sum_replicate]
      norm_num)
  refine ⟨h.1, h.2.1, h.2.2 driftSquintSt (1/10) rfl rfl ?_ ?_ (by norm_num)⟩
  · simp [driftSquintSt]
  · intro x hx
    simp only [driftSquintSt] at hx
    exact List.eq_of_mem_replicate hx
